import Mathlib

/-!
Shallow embedding of the transient-cookie store, the logout handler and the
login return-URL handling of the nextjs-auth0 auth0-session layer.

Translated from the source:
* src/auth0-session/transient-store.ts (TransientStore.getKeys, save, read)
* src/auth0-session/handlers/logout.ts (logoutHandlerFactory)

The signed-cookie codec (utils/signed-cookies), the key deriver (utils/hkdf)
and the login orchestrator are not part of the given sources; they are
modelled from the spec where a claim needs them, and each such definition
says so in its doc comment.

Conventions of the embedding: async functions become pure functions (the
awaited collaborators are deterministic); the mutable response object
becomes an explicit list of response actions in the order the source
performs them; the request cookie jar becomes a function from cookie names
to optional wire values.
-/

/-- Modelled from the spec: a signing key derived by the key deriver of
utils/hkdf. The derivation is a deterministic function of the secret (the
purpose label is fixed to signing here), so the key is modelled as a wrapper
around the secret it was derived from. -/
structure SigningKey where
  material : String
deriving DecidableEq, Repr

/-- Modelled from the spec: the hkdf signing-key derivation, deterministic
in the secret. -/
def signing (secret : String) : SigningKey :=
  SigningKey.mk secret

/-- Modelled from the spec: the message-authentication tag of the signed
cookie codec. The spec requires the tag to be computed over the exact cookie
name and payload with one key, and substituting any of them must make
verification fail; the tag is therefore modelled as the triple it
authenticates, so that tag equality holds exactly when name, payload and key
all agree. -/
structure MacTag where
  cookieName : String
  payload : String
  keyMaterial : String
deriving DecidableEq, Repr

/-- Modelled from the spec: the opaque signed cookie value, which the spec
describes as encoded payload, separator, then signature; the separator
encoding is modelled as the pair of the two parts. -/
structure SignedCookie where
  payload : String
  tag : MacTag
deriving DecidableEq, Repr

/-- Modelled from the spec: computing the tag over cookie name and payload
under one key. -/
def macTag (name payload : String) (key : SigningKey) : MacTag :=
  MacTag.mk name payload key.material

/-- Modelled from the spec: encode of the signed cookie codec
(utils/signed-cookies generateCookieValue): serialize the value and append
the tag computed over the cookie name and the value. -/
def generateCookieValue (name value : String) (key : SigningKey) : SignedCookie :=
  SignedCookie.mk value (macTag name value key)

/-- Modelled from the spec: the rotation-aware verification loop of decode,
trying each candidate key in the given order and returning the payload at
the first key whose recomputed tag matches. -/
def verifyWithKeys (name : String) (c : SignedCookie) : List SigningKey → Option String
  | [] => Option.none
  | k :: ks =>
    if c.tag = macTag name c.payload k then some c.payload else verifyWithKeys name c ks

/-- Modelled from the spec: decode of the signed cookie codec
(utils/signed-cookies getCookieValue): absent or malformed input and
signature mismatch all collapse to no value. -/
def getCookieValue (name : String) (cookie : Option SignedCookie)
    (keys : List SigningKey) : Option String :=
  match cookie with
  | Option.none => Option.none
  | some c => verifyWithKeys name c keys

/-- SameSite attribute values, from the StoreOptions type of
transient-store.ts: boolean or lax or strict or none. -/
inductive SameSiteOpt where
  | ssBool (b : Bool)
  | ssLax
  | ssStrict
  | ssNone
deriving DecidableEq, Repr

/-- The cookie attributes of config.session.cookie used by the transient
store: domain, path and the secure flag. -/
structure CookieConfig where
  domain : Option String
  path : Option String
  secure : Bool
deriving DecidableEq, Repr

/-- The session part of the configuration. -/
structure SessionConfig where
  cookie : CookieConfig
deriving DecidableEq, Repr

/-- The configured secret: a single string or an array of strings, as in the
TypeScript union type. -/
inductive SecretConfig where
  | single (s : String)
  | multiple (ss : List String)
deriving DecidableEq, Repr

/-- Normalisation of the secret as done in TransientStore.getKeys:
a lone secret becomes a one-element list, an array is used as given. -/
def secretList : SecretConfig → List String
  | SecretConfig.single s => [s]
  | SecretConfig.multiple ss => ss

/-- The routes part of the configuration used by the logout handler. -/
structure Routes where
  postLogoutRedirect : String
deriving DecidableEq, Repr

/-- The configuration fields consumed by the transient store and the logout
handler. -/
structure Config where
  secret : SecretConfig
  legacySameSiteCookie : Bool
  session : SessionConfig
  baseURL : String
  idpLogout : Bool
  routes : Routes
deriving DecidableEq, Repr

/-- Attributes passed to setCookie; sameSite is optional because the
fallback cookie of save is written without a SameSite attribute. -/
structure CookieAttrs where
  httpOnly : Bool
  secure : Bool
  domain : Option String
  path : Option String
  sameSite : Option SameSiteOpt
deriving DecidableEq, Repr

/-- One observable action on the response object: a setCookie or a
clearCookie call, in source order. -/
inductive ResAction where
  | setCookie (name : String) (value : SignedCookie) (attrs : CookieAttrs)
  | clearCookie (name : String) (cfg : CookieConfig)
deriving DecidableEq, Repr

/-- StoreOptions of transient-store.ts; sameSite defaults to none inside
save, mirroring the destructuring default of the source. -/
structure StoreOptions where
  sameSite : Option SameSiteOpt
  value : String
deriving DecidableEq, Repr

/-- TransientStore.getKeys: normalise the configured secret to a list and
derive a signing key from every secret, preserving order. The lazy caching
of the source is dropped because the derivation is deterministic. -/
def TransientStore.getKeys (config : Config) : List SigningKey :=
  (secretList config.secret).map signing

/-- The outcome of TransientStore.save: the response actions it performed
and the string it returned. -/
structure SaveResult where
  actions : List ResAction
  result : String
deriving DecidableEq, Repr

/-- TransientStore.save. Returns none when the configured secret list is
empty, where the source would fail destructuring the first key; otherwise
writes the primary cookie (forcing secure for SameSite none) and, when
SameSite is none and the legacy flag is on, the underscore-prefixed fallback
cookie with the basic attributes, and returns the raw input value. -/
def TransientStore.save (config : Config) (key : String) (opts : StoreOptions) :
    Option SaveResult :=
  let sameSite := opts.sameSite.getD SameSiteOpt.ssNone
  let cc := config.session.cookie
  let basicAttr : CookieAttrs :=
    CookieAttrs.mk true cc.secure cc.domain cc.path Option.none
  match TransientStore.getKeys config with
  | [] => Option.none
  | signingKey :: _ =>
    let primary := ResAction.setCookie key (generateCookieValue key opts.value signingKey)
      (CookieAttrs.mk true
        (if sameSite = SameSiteOpt.ssNone then true else basicAttr.secure)
        cc.domain cc.path (some sameSite))
    let fallbackActs : List ResAction :=
      if sameSite = SameSiteOpt.ssNone ∧ config.legacySameSiteCookie = true then
        [ResAction.setCookie ("_" ++ key)
          (generateCookieValue ("_" ++ key) opts.value signingKey) basicAttr]
      else []
    some (SaveResult.mk (primary :: fallbackActs) opts.value)

/-- The outcome of TransientStore.read: the response actions it performed
and the recovered value, if any. -/
structure ReadResult where
  actions : List ResAction
  value : Option String
deriving DecidableEq, Repr

/-- TransientStore.read. Looks up and verifies the primary cookie, clears
it unconditionally, then, when the legacy flag is on, falls back to the
underscore-prefixed cookie only when no value was recovered and clears the
fallback cookie unconditionally. -/
def TransientStore.read (config : Config) (key : String)
    (cookies : String → Option SignedCookie) : ReadResult :=
  let cookie := cookies key
  let cookieConfig := config.session.cookie
  let verifyingKeys := TransientStore.getKeys config
  let value := getCookieValue key cookie verifyingKeys
  if config.legacySameSiteCookie = true then
    let fallbackKey := "_" ++ key
    let value2 :=
      match value with
      | Option.none => getCookieValue fallbackKey (cookies fallbackKey) verifyingKeys
      | some v => some v
    ReadResult.mk
      [ResAction.clearCookie key cookieConfig, ResAction.clearCookie fallbackKey cookieConfig]
      value2
  else
    ReadResult.mk [ResAction.clearCookie key cookieConfig] value

/-- Number of clearCookie actions for a given cookie name in a response
action list. -/
def clearCount (acts : List ResAction) (name : String) : Nat :=
  acts.countP fun a =>
    match a with
    | ResAction.clearCookie n _ => n == name
    | _ => false

/-- Scheme separator detection on a character list: true when the three
characters of a URL scheme separator occur in sequence. -/
def hasSchemeSep : List Char → Bool
  | [] => false
  | ':' :: '/' :: '/' :: _ => true
  | _ :: cs => hasSchemeSep cs

/-- Modelled from the spec: whether a string is an absolute URL (one with a
scheme), the success condition of the URL constructor the logout handler
probes with and the absolute-URL test of return-URL resolution. -/
def isAbsoluteUrl (s : String) : Bool :=
  hasSchemeSep s.data

/-- Whether a string starts with a slash, on the character list. -/
def startsWithSlash (s : String) : Bool :=
  match s.data with
  | '/' :: _ => true
  | _ => false

/-- Modelled from the spec: joining a relative reference onto a base URL as
url-join does, eliding slash normalisation beyond inserting one when
missing. -/
def joinUrl (base p : String) : String :=
  if startsWithSlash p then base ++ p else base ++ "/" ++ p

/-- LogoutOptions of the logout handler: an optional returnTo and extra
logout parameters. -/
structure LogoutOptions where
  returnTo : Option String
  logoutParams : List (String × String)
deriving DecidableEq, Repr

/-- The parameters the logout handler passes to endSessionUrl of the
identity-provider client. -/
structure EndSessionParams where
  logoutParams : List (String × String)
  postLogoutRedirectUri : String
  idTokenHint : Option String
deriving DecidableEq, Repr

/-- Observable steps of the logout handler, in source order: deletion of
the local session, computation of the identity-provider end-session URL,
and the final redirect. -/
inductive LogoutEvent where
  | sessionDelete
  | endSessionCompute (params : EndSessionParams)
  | redirect (url : String)
deriving DecidableEq, Repr

/-- The outcome of one logout invocation: the events it performed and the
error it propagated, if end-session-URL construction failed. -/
structure LogoutResult where
  events : List LogoutEvent
  error : Option String
deriving DecidableEq, Repr

/-- The session collaborator as the logout handler observes it. -/
structure SessionState where
  isAuthenticated : Bool
  idToken : Option String
deriving DecidableEq, Repr

/-- Return-URL resolution at the top of the logout handler: the returnTo
option or the configured post-logout redirect, kept as-is when absolute and
otherwise joined onto the base URL. -/
def resolveReturnURL (config : Config) (options : LogoutOptions) : String :=
  let returnURL := options.returnTo.getD config.routes.postLogoutRedirect
  if isAbsoluteUrl returnURL then returnURL else joinUrl config.baseURL returnURL

/-- logoutHandlerFactory of handlers/logout.ts, as a function from the
configuration, the session state, the end-session-URL constructor of the
client (which may fail) and the options to the performed events. When not
authenticated it redirects at once; otherwise it reads the ID token,
deletes the session, then either redirects locally or computes the
end-session URL and redirects there, propagating a construction failure as
an error after the deletion already happened. -/
def logoutHandler (config : Config) (session : SessionState)
    (endSessionUrl : EndSessionParams → Except String String)
    (options : LogoutOptions) : LogoutResult :=
  let returnURL := resolveReturnURL config options
  if session.isAuthenticated = false then
    LogoutResult.mk [LogoutEvent.redirect returnURL] Option.none
  else
    let idToken := session.idToken
    if config.idpLogout = false then
      LogoutResult.mk [LogoutEvent.sessionDelete, LogoutEvent.redirect returnURL] Option.none
    else
      let params := EndSessionParams.mk options.logoutParams returnURL idToken
      match endSessionUrl params with
      | Except.ok url =>
        LogoutResult.mk
          [LogoutEvent.sessionDelete, LogoutEvent.endSessionCompute params,
            LogoutEvent.redirect url]
          Option.none
      | Except.error e =>
        LogoutResult.mk
          [LogoutEvent.sessionDelete, LogoutEvent.endSessionCompute params] (some e)

/-- A value inside the login state mapping: a string or a number, enough to
distinguish mappings from bare scalars. -/
inductive StateValue where
  | str (s : String)
  | num (n : Int)
deriving DecidableEq, Repr

/-- What a caller-supplied custom state hook may return: a key-value
mapping, or a bare scalar, the invalid case. -/
inductive CustomStateResult where
  | mapping (m : List (String × StateValue))
  | scalar (v : StateValue)
deriving DecidableEq, Repr

/-- First occurrence of a query parameter in the parsed querystring, in
order. -/
def firstQueryParam (query : List (String × String)) (name : String) : Option String :=
  (query.find? fun p => p.1 == name).map Prod.snd

/-- Modelled from the spec: return-URL resolution during login-state
construction, steps one to four. Start from the configured default; take
only the first returnTo query parameter and reject it when it is an
absolute URL; let an explicit caller option override the query result and
be allowed absolute; resolve any relative result against the effective
redirect-URI origin. -/
def resolveLoginReturnTo (defaultReturnTo : String) (query : List (String × String))
    (optReturnTo : Option String) (redirectOrigin : String) : String :=
  let fromQuery : Option String :=
    match firstQueryParam query "returnTo" with
    | some rt => if isAbsoluteUrl rt then Option.none else some rt
    | Option.none => Option.none
  let chosen :=
    match optReturnTo with
    | some rt => rt
    | Option.none =>
      match fromQuery with
      | some rt => rt
      | Option.none => defaultReturnTo
  if isAbsoluteUrl chosen then chosen else joinUrl redirectOrigin chosen

/-- Last-wins merge of the accumulated login state with the mapping the
custom hook returned, modelled as ordered append. -/
def mergeState (base extra : List (String × StateValue)) : List (String × StateValue) :=
  base ++ extra

/-- Modelled from the spec: building the login state, validating the custom
hook result at the boundary; a non-mapping result is the invalid custom
state error. -/
def buildLoginState (returnTo : String) (hook : Option CustomStateResult) :
    Except String (List (String × StateValue)) :=
  match hook with
  | Option.none => Except.ok [("returnTo", StateValue.str returnTo)]
  | some (CustomStateResult.mapping m) =>
    Except.ok (mergeState [("returnTo", StateValue.str returnTo)] m)
  | some (CustomStateResult.scalar _) =>
    Except.error "Custom state value must be an object"

/-- Observable actions of the login handler: persisting one transient
cookie, or the final redirect to the authorize endpoint. -/
inductive LoginAction where
  | saveTransient (name : String)
  | redirect (url : String)
deriving DecidableEq, Repr

/-- The outcome of one login invocation: the performed actions on success,
or a server error before anything was performed. -/
inductive LoginOutcome where
  | success (actions : List LoginAction)
  | serverError (message : String)
deriving DecidableEq, Repr

/-- Modelled from the spec: the login orchestrator. The login state is
built first; a failure there aborts the attempt as a server error naming
the cause, before any transient cookie is written and before the redirect;
on success the nonce, state and code-verifier transient cookies are written
and the redirect is issued. -/
def loginHandler (authorizeUrl : String) (returnTo : String)
    (hook : Option CustomStateResult) : LoginOutcome :=
  match buildLoginState returnTo hook with
  | Except.error e => LoginOutcome.serverError ("Login handler failed. CAUSE: " ++ e)
  | Except.ok _ =>
    LoginOutcome.success
      [LoginAction.saveTransient "nonce", LoginAction.saveTransient "state",
        LoginAction.saveTransient "code_verifier", LoginAction.redirect authorizeUrl]

/-- The response actions a login outcome performed: none on a server
error. -/
def loginActions : LoginOutcome → List LoginAction
  | LoginOutcome.success as => as
  | LoginOutcome.serverError _ => []

/-- Sample configuration with a single secret and the legacy SameSite
fallback enabled. -/
def cfgLegacy : Config :=
  Config.mk (SecretConfig.single "s") true
    (SessionConfig.mk (CookieConfig.mk Option.none (some "/") false))
    "http://www.acme.com" false (Routes.mk "/")

/-- Sample configuration with two rotated secrets and identity-provider
logout enabled. -/
def cfgRot : Config :=
  Config.mk (SecretConfig.multiple ["s1", "s2"]) false
    (SessionConfig.mk (CookieConfig.mk Option.none (some "/") true))
    "http://www.acme.com" true (Routes.mk "/")

/-- Sample request cookie jar holding one valid signed state cookie. -/
def stateCookieJar : String → Option SignedCookie :=
  fun n => if n = "state" then some (generateCookieValue "state" "v" (signing "s")) else Option.none

/-- Prefixing a cookie name with an underscore always changes it. -/
theorem underscore_append_ne (key : String) : "_" ++ key ≠ key := by
  intro h
  have hlen := congrArg String.length h
  rw [String.length_append] at hlen
  simp at hlen
  exact absurd hlen (by decide)

/-- The rotation-aware verification loop succeeds whenever some candidate
key recomputes the tag, whichever position it occupies. -/
theorem verifyWithKeys_of_mem (name : String) (c : SignedCookie) (k : SigningKey)
    (keys : List SigningKey) (hk : k ∈ keys) (ht : c.tag = macTag name c.payload k) :
    verifyWithKeys name c keys = some c.payload := by
  induction keys with
  | nil => cases hk
  | cons k0 ks ih =>
    by_cases h : c.tag = macTag name c.payload k0
    · simp [verifyWithKeys, h]
    · rcases List.mem_cons.mp hk with h1 | h1
      · exact absurd (h1 ▸ ht) h
      · simp [verifyWithKeys, h]
        exact ih h1

/-- The first response action of a successful save is the primary setCookie
with the value signed under the key of the first configured secret, the
requested SameSite attribute, and the secure flag forced on exactly for
SameSite none. -/
theorem save_primary_head (config : Config) (key : String) (opts : StoreOptions)
    (r : SaveResult) (hsave : TransientStore.save config key opts = some r) :
    r.actions.head? = some (ResAction.setCookie key
      (generateCookieValue key opts.value (signing ((secretList config.secret).headD "")))
      (CookieAttrs.mk true
        (if opts.sameSite.getD SameSiteOpt.ssNone = SameSiteOpt.ssNone then true
          else config.session.cookie.secure)
        config.session.cookie.domain config.session.cookie.path
        (some (opts.sameSite.getD SameSiteOpt.ssNone)))) := by
  unfold TransientStore.save TransientStore.getKeys at hsave
  rcases hsec : secretList config.secret with _ | ⟨s0, ss⟩
  · rw [hsec] at hsave
    simp at hsave
  · rw [hsec] at hsave
    simp at hsave
    rw [← hsave]
    simp

/-- C1 counterexample: at a concrete legacy configuration, a save with
SameSite none writes the primary and the fallback cookie, and the two
setCookie calls receive distinct values, because each value is signed over
its own cookie name. -/
theorem transientStore_save_legacy_values_differ :
    (TransientStore.save cfgLegacy "state" (StoreOptions.mk (some SameSiteOpt.ssNone) "v")).map
        SaveResult.actions
      = some
          [ResAction.setCookie "state" (generateCookieValue "state" "v" (signing "s"))
            (CookieAttrs.mk true true Option.none (some "/") (some SameSiteOpt.ssNone)),
            ResAction.setCookie "_state" (generateCookieValue "_state" "v" (signing "s"))
            (CookieAttrs.mk true false Option.none (some "/") Option.none)]
    ∧ generateCookieValue "state" "v" (signing "s")
        ≠ generateCookieValue "_state" "v" (signing "s") :=
  ⟨by decide, by decide⟩

/-- C1 (amended): for every save with SameSite none under an enabled legacy
flag, the fallback setCookie receives the same payload as the primary one,
signed with the same key, but signed under the underscore-prefixed name, so
the two cookie values agree on the payload while the signed values as a
whole differ whenever the signature binds the name. -/
theorem transientStore_save_legacy_fallback_same_payload
    (config : Config) (key value : String) (r : SaveResult)
    (hleg : config.legacySameSiteCookie = true)
    (hsave : TransientStore.save config key (StoreOptions.mk (some SameSiteOpt.ssNone) value)
      = some r) :
    r.actions =
      [ResAction.setCookie key
        (generateCookieValue key value (signing ((secretList config.secret).headD "")))
        (CookieAttrs.mk true true config.session.cookie.domain config.session.cookie.path
          (some SameSiteOpt.ssNone)),
        ResAction.setCookie ("_" ++ key)
        (generateCookieValue ("_" ++ key) value (signing ((secretList config.secret).headD "")))
        (CookieAttrs.mk true config.session.cookie.secure config.session.cookie.domain
          config.session.cookie.path Option.none)]
    ∧ (generateCookieValue key value (signing ((secretList config.secret).headD ""))).payload
        = (generateCookieValue ("_" ++ key) value
            (signing ((secretList config.secret).headD ""))).payload := by
  unfold TransientStore.save TransientStore.getKeys at hsave
  rcases hsec : secretList config.secret with _ | ⟨s0, ss⟩
  · rw [hsec] at hsave
    simp at hsave
  · rw [hsec] at hsave
    simp [hleg] at hsave
    rw [← hsave]
    simp [generateCookieValue]

/-- Witness for the amended C1 at the sample legacy configuration. -/
theorem transientStore_save_legacy_fallback_same_payload_witness :
    ((TransientStore.save cfgLegacy "state" (StoreOptions.mk (some SameSiteOpt.ssNone) "v")).getD
        (SaveResult.mk [] "")).actions =
      [ResAction.setCookie "state"
        (generateCookieValue "state" "v" (signing ((secretList cfgLegacy.secret).headD "")))
        (CookieAttrs.mk true true cfgLegacy.session.cookie.domain cfgLegacy.session.cookie.path
          (some SameSiteOpt.ssNone)),
        ResAction.setCookie ("_" ++ "state")
        (generateCookieValue ("_" ++ "state") "v" (signing ((secretList cfgLegacy.secret).headD "")))
        (CookieAttrs.mk true cfgLegacy.session.cookie.secure cfgLegacy.session.cookie.domain
          cfgLegacy.session.cookie.path Option.none)]
    ∧ (generateCookieValue "state" "v" (signing ((secretList cfgLegacy.secret).headD ""))).payload
        = (generateCookieValue ("_" ++ "state") "v"
            (signing ((secretList cfgLegacy.secret).headD ""))).payload :=
  transientStore_save_legacy_fallback_same_payload cfgLegacy "state" "v"
    ((TransientStore.save cfgLegacy "state" (StoreOptions.mk (some SameSiteOpt.ssNone) "v")).getD
      (SaveResult.mk [] ""))
    (by decide) (by decide)

/-- C2: every read clears the primary cookie under the given key exactly
once, whatever the request cookies held and however verification went. -/
theorem transientStore_read_clears_primary_exactly_once
    (config : Config) (key : String) (cookies : String → Option SignedCookie) :
    clearCount (TransientStore.read config key cookies).actions key = 1 := by
  unfold TransientStore.read
  by_cases h : config.legacySameSiteCookie = true
  · simp [h, clearCount, underscore_append_ne key]
  · simp [h, clearCount]

/-- C3: the primary cookie of every successful save is set with the secure
flag forced true when SameSite is none (the default), and with the
configured secure flag for every other SameSite value. -/
theorem transientStore_save_secure_flag
    (config : Config) (key : String) (opts : StoreOptions) (r : SaveResult)
    (hsave : TransientStore.save config key opts = some r) :
    r.actions.head? = some (ResAction.setCookie key
      (generateCookieValue key opts.value (signing ((secretList config.secret).headD "")))
      (CookieAttrs.mk true
        (if opts.sameSite.getD SameSiteOpt.ssNone = SameSiteOpt.ssNone then true
          else config.session.cookie.secure)
        config.session.cookie.domain config.session.cookie.path
        (some (opts.sameSite.getD SameSiteOpt.ssNone)))) :=
  save_primary_head config key opts r hsave

/-- Witness for C3 at the sample legacy configuration with a non-none
SameSite value, showing the configured secure flag is used there. -/
theorem transientStore_save_secure_flag_witness :
    ((TransientStore.save cfgLegacy "state" (StoreOptions.mk (some SameSiteOpt.ssLax) "v")).getD
        (SaveResult.mk [] "")).actions.head? = some (ResAction.setCookie "state"
      (generateCookieValue "state" "v" (signing ((secretList cfgLegacy.secret).headD "")))
      (CookieAttrs.mk true
        (if (some SameSiteOpt.ssLax).getD SameSiteOpt.ssNone = SameSiteOpt.ssNone then true
          else cfgLegacy.session.cookie.secure)
        cfgLegacy.session.cookie.domain cfgLegacy.session.cookie.path
        (some ((some SameSiteOpt.ssLax).getD SameSiteOpt.ssNone)))) :=
  transientStore_save_secure_flag cfgLegacy "state" (StoreOptions.mk (some SameSiteOpt.ssLax) "v")
    ((TransientStore.save cfgLegacy "state" (StoreOptions.mk (some SameSiteOpt.ssLax) "v")).getD
      (SaveResult.mk [] ""))
    (by decide)

/-- C4: save signs with the key derived from the first configured secret
(its primary setCookie carries the value signed under that key), a value
signed under the key of any configured secret verifies during read against
the full derived key list, and verification returns at the first matching
key of the candidate list. -/
theorem transientStore_key_rotation
    (config : Config) (key payload : String) (opts : StoreOptions) (s : String)
    (r : SaveResult) (c : SignedCookie) (k : SigningKey) (ks : List SigningKey)
    (hs : s ∈ secretList config.secret)
    (hsave : TransientStore.save config key opts = some r)
    (ht : c.tag = macTag key c.payload k) :
    r.actions.head? = some (ResAction.setCookie key
      (generateCookieValue key opts.value (signing ((secretList config.secret).headD "")))
      (CookieAttrs.mk true
        (if opts.sameSite.getD SameSiteOpt.ssNone = SameSiteOpt.ssNone then true
          else config.session.cookie.secure)
        config.session.cookie.domain config.session.cookie.path
        (some (opts.sameSite.getD SameSiteOpt.ssNone))))
    ∧ getCookieValue key (some (generateCookieValue key payload (signing s)))
        (TransientStore.getKeys config) = some payload
    ∧ getCookieValue key (some c) (k :: ks) = some c.payload := by
  refine ⟨save_primary_head config key opts r hsave, ?_, ?_⟩
  · exact verifyWithKeys_of_mem key (generateCookieValue key payload (signing s)) (signing s)
      (TransientStore.getKeys config) (List.mem_map_of_mem signing hs) rfl
  · simp [getCookieValue, verifyWithKeys, ht]

/-- Witness for C4 at the two-secret sample configuration, with a value
signed under the second configured secret and a verification list headed by
a matching key. -/
theorem transientStore_key_rotation_witness :
    ((TransientStore.save cfgRot "state" (StoreOptions.mk (some SameSiteOpt.ssLax) "v")).getD
        (SaveResult.mk [] "")).actions.head? = some (ResAction.setCookie "state"
      (generateCookieValue "state" "v" (signing ((secretList cfgRot.secret).headD "")))
      (CookieAttrs.mk true
        (if (some SameSiteOpt.ssLax).getD SameSiteOpt.ssNone = SameSiteOpt.ssNone then true
          else cfgRot.session.cookie.secure)
        cfgRot.session.cookie.domain cfgRot.session.cookie.path
        (some ((some SameSiteOpt.ssLax).getD SameSiteOpt.ssNone))))
    ∧ getCookieValue "state" (some (generateCookieValue "state" "p" (signing "s2")))
        (TransientStore.getKeys cfgRot) = some "p"
    ∧ getCookieValue "state" (some (generateCookieValue "state" "x" (signing "s1")))
        (signing "s1" :: [signing "s2"])
      = some (generateCookieValue "state" "x" (signing "s1")).payload :=
  transientStore_key_rotation cfgRot "state" "p" (StoreOptions.mk (some SameSiteOpt.ssLax) "v")
    "s2"
    ((TransientStore.save cfgRot "state" (StoreOptions.mk (some SameSiteOpt.ssLax) "v")).getD
      (SaveResult.mk [] ""))
    (generateCookieValue "state" "x" (signing "s1")) (signing "s1") [signing "s2"]
    (by decide) (by decide) rfl

/-- C5: return-URL resolution honors only the first returnTo query
parameter, and rejects an absolute URL there, falling back to the default
as if no returnTo had been given; concretely, an evil absolute URL resolves
to the default, and of two occurrences only the first is honored, resolved
against the redirect-URI origin. -/
theorem login_returnTo_first_and_relative_only
    (d o rt : String) (q : List (String × String))
    (hq : firstQueryParam q "returnTo" = some rt) :
    resolveLoginReturnTo d q Option.none o =
      (if isAbsoluteUrl rt then resolveLoginReturnTo d [] Option.none o else joinUrl o rt)
    ∧ resolveLoginReturnTo "http://www.acme.com/" [("returnTo", "https://evil.com")]
        Option.none "http://www.acme.com" = "http://www.acme.com/"
    ∧ resolveLoginReturnTo d [("returnTo", "/foo"), ("returnTo", "/bar")] Option.none o
        = joinUrl o "/foo" := by
  refine ⟨?_, by decide, ?_⟩
  · unfold resolveLoginReturnTo
    rw [hq]
    by_cases habs : isAbsoluteUrl rt
    · simp [habs, firstQueryParam]
    · simp [habs, joinUrl]
  · unfold resolveLoginReturnTo
    have h1 : firstQueryParam [("returnTo", "/foo"), ("returnTo", "/bar")] "returnTo"
        = some "/foo" := by decide
    rw [h1]
    have h2 : isAbsoluteUrl "/foo" = false := by decide
    simp [h2]

/-- Witness for C5 at the duplicated-returnTo querystring. -/
theorem login_returnTo_first_and_relative_only_witness :
    resolveLoginReturnTo "http://www.acme.com/"
        [("returnTo", "/foo"), ("returnTo", "/bar")] Option.none "http://www.acme.com" =
      (if isAbsoluteUrl "/foo" then
        resolveLoginReturnTo "http://www.acme.com/" [] Option.none "http://www.acme.com"
      else joinUrl "http://www.acme.com" "/foo")
    ∧ resolveLoginReturnTo "http://www.acme.com/" [("returnTo", "https://evil.com")]
        Option.none "http://www.acme.com" = "http://www.acme.com/"
    ∧ resolveLoginReturnTo "http://www.acme.com/" [("returnTo", "/foo"), ("returnTo", "/bar")]
        Option.none "http://www.acme.com" = joinUrl "http://www.acme.com" "/foo" :=
  login_returnTo_first_and_relative_only "http://www.acme.com/" "http://www.acme.com" "/foo"
    [("returnTo", "/foo"), ("returnTo", "/bar")] (by decide)

/-- C6: a custom state hook returning a bare scalar makes the login attempt
fail with a server error naming the custom-state cause, and the outcome
carries no actions: no transient cookie is written and no redirect is
issued. -/
theorem login_custom_state_scalar_fails
    (authorizeUrl returnTo : String) (v : StateValue) :
    loginHandler authorizeUrl returnTo (some (CustomStateResult.scalar v))
      = LoginOutcome.serverError "Login handler failed. CAUSE: Custom state value must be an object"
    ∧ loginActions (loginHandler authorizeUrl returnTo (some (CustomStateResult.scalar v))) = [] := by
  constructor
  · rfl
  · rfl

/-- C7: whenever the session reports the user as authenticated, the first
event of the logout handler is the local session deletion, so the deletion
precedes any end-session-URL computation, including runs where that
computation fails. -/
theorem logout_deletes_session_before_end_session
    (config : Config) (session : SessionState)
    (endSessionUrl : EndSessionParams → Except String String) (options : LogoutOptions)
    (hauth : session.isAuthenticated = true) :
    (logoutHandler config session endSessionUrl options).events.head?
      = some LogoutEvent.sessionDelete := by
  unfold logoutHandler
  simp [hauth]
  by_cases hidp : config.idpLogout = false
  · simp [hidp]
  · simp [hidp]
    rcases endSessionUrl (EndSessionParams.mk options.logoutParams
      (resolveReturnURL config options) session.idToken) with url | e <;> simp

/-- Witness for C7 at the identity-provider sample configuration with a
failing end-session-URL constructor. -/
theorem logout_deletes_session_before_end_session_witness :
    (logoutHandler cfgRot (SessionState.mk true (some "idt"))
        (fun _ => Except.error "boom") (LogoutOptions.mk Option.none [])).events.head?
      = some LogoutEvent.sessionDelete :=
  logout_deletes_session_before_end_session cfgRot (SessionState.mk true (some "idt"))
    (fun _ => Except.error "boom") (LogoutOptions.mk Option.none []) (by decide)

/-- C8: whenever the session reports the user as not authenticated, the
logout handler only redirects to the resolved return URL and never deletes
the session, so a repeated logout is safe. -/
theorem logout_unauthenticated_redirects_without_delete
    (config : Config) (session : SessionState)
    (endSessionUrl : EndSessionParams → Except String String) (options : LogoutOptions)
    (hauth : session.isAuthenticated = false) :
    (logoutHandler config session endSessionUrl options).events
      = [LogoutEvent.redirect (resolveReturnURL config options)]
    ∧ LogoutEvent.sessionDelete ∉ (logoutHandler config session endSessionUrl options).events := by
  unfold logoutHandler
  simp [hauth]

/-- Witness for C8 at the sample configuration with an unauthenticated
session. -/
theorem logout_unauthenticated_redirects_without_delete_witness :
    (logoutHandler cfgRot (SessionState.mk false Option.none)
        (fun _ => Except.ok "https://idp/end") (LogoutOptions.mk Option.none [])).events
      = [LogoutEvent.redirect (resolveReturnURL cfgRot (LogoutOptions.mk Option.none []))]
    ∧ LogoutEvent.sessionDelete ∉ (logoutHandler cfgRot (SessionState.mk false Option.none)
        (fun _ => Except.ok "https://idp/end") (LogoutOptions.mk Option.none [])).events :=
  logout_unauthenticated_redirects_without_delete cfgRot (SessionState.mk false Option.none)
    (fun _ => Except.ok "https://idp/end") (LogoutOptions.mk Option.none []) (by decide)

/-- C9: whenever the legacy SameSite flag is enabled, every read clears the
underscore-prefixed fallback cookie, also when the primary cookie already
yielded a valid value. -/
theorem transientStore_read_clears_fallback_when_legacy
    (config : Config) (key : String) (cookies : String → Option SignedCookie)
    (hleg : config.legacySameSiteCookie = true) :
    ResAction.clearCookie ("_" ++ key) config.session.cookie
      ∈ (TransientStore.read config key cookies).actions := by
  unfold TransientStore.read
  simp [hleg]

/-- Witness for C9 at the sample legacy configuration on a request whose
primary cookie verifies successfully, so the fallback cookie was never
looked up and is still cleared. -/
theorem transientStore_read_clears_fallback_when_legacy_witness :
    ResAction.clearCookie ("_" ++ "state") cfgLegacy.session.cookie
      ∈ (TransientStore.read cfgLegacy "state" stateCookieJar).actions
    ∧ (TransientStore.read cfgLegacy "state" stateCookieJar).value = some "v" :=
  ⟨transientStore_read_clears_fallback_when_legacy cfgLegacy "state" stateCookieJar (by decide),
    by decide⟩

/-- C10: every successful save returns the raw caller-supplied value, not
the signed cookie value it wrote to the response. -/
theorem transientStore_save_returns_raw_value
    (config : Config) (key : String) (opts : StoreOptions) (r : SaveResult)
    (hsave : TransientStore.save config key opts = some r) :
    r.result = opts.value := by
  unfold TransientStore.save TransientStore.getKeys at hsave
  rcases hsec : secretList config.secret with _ | ⟨s0, ss⟩
  · rw [hsec] at hsave
    simp at hsave
  · rw [hsec] at hsave
    simp at hsave
    rw [← hsave]

/-- Witness for C10 at the sample legacy configuration. -/
theorem transientStore_save_returns_raw_value_witness :
    ((TransientStore.save cfgLegacy "state" (StoreOptions.mk (some SameSiteOpt.ssNone) "v")).getD
        (SaveResult.mk [] "")).result = "v" :=
  transientStore_save_returns_raw_value cfgLegacy "state"
    (StoreOptions.mk (some SameSiteOpt.ssNone) "v")
    ((TransientStore.save cfgLegacy "state" (StoreOptions.mk (some SameSiteOpt.ssNone) "v")).getD
      (SaveResult.mk [] ""))
    (by decide)
